import Mathlib

/-!
Verification of the UseCaseAgent permission-check and orchestration workflow
of src/usercase.py against its natural-language specification.

The Python class UseCaseAgent is embedded shallowly:

  * External collaborators (the IAM policy-simulation call, the S3 listing
    call, and the two stubbed pipeline steps generate_csvs and batch_load)
    are modelled by a Behavior record giving the outcome of each call that a
    single run can make.  Each embedded method also returns the list of
    collaborator calls it performed, with the arguments the code computed,
    so that claims about which collaborator is invoked (and with which
    resource scope) can be stated.
  * Python exceptions are modelled by the type Exc.  The source code
    distinguishes botocore.exceptions.ClientError (caught in
    check_s3_permissions and re-raised in simulate_permissions) from every
    other exception (caught only by the blanket "except Exception" handlers
    in run), so Exc records whether a value is a ClientError.
  * Fallible methods return Except Exc; the blanket handlers in run catch
    every constructor of Exc, mirroring "except Exception".
  * The summary dict of run, whose five keys are fixed at creation and only
    mutated afterwards (Python dicts preserve insertion order), is modelled
    by the Summary structure together with Summary.toPairs, which lists the
    entries in the creation order of the keys.
  * The Python names self.prefix and self.s3_prefix are rendered as
    action_pfx and s3_pfx.
-/

/-- Python exception values visible to this workflow.  The source code treats
botocore.exceptions.ClientError specially, so the model records whether an
exception is a ClientError; msg models str(e). -/
inductive Exc where
  | clientError (msg : String)
  | other (msg : String)
deriving Repr, DecidableEq

/-- True exactly for the ClientError constructor, mirroring an
"except botocore.exceptions.ClientError" clause. -/
def Exc.isClientError : Exc → Bool
  | .clientError _ => true
  | .other _ => false

/-- Models str(e), the text stored under the "error" key by run. -/
def Exc.message : Exc → String
  | .clientError m => m
  | .other m => m

/-- One record of the EvaluationResults list returned by the IAM
simulate_principal_policy collaborator: the fields the code reads are
EvalActionName, EvalDecision and MatchedStatements (usercase.py lines
96-100, 118-120).  The response schema guarantees these fields, so they are
modelled as total. -/
structure EvalResult where
  evalActionName : String
  evalDecision : String
  matchedStatements : List String
deriving Repr, DecidableEq

/-- Equality of Except values is decidable when it is on both components. -/
instance (ε α : Type) [DecidableEq ε] [DecidableEq α] : DecidableEq (Except ε α) :=
  fun x y =>
    match x, y with
    | .error a, .error b => decidable_of_iff (a = b) (by simp)
    | .error _, .ok _ => isFalse (by simp)
    | .ok _, .error _ => isFalse (by simp)
    | .ok a, .ok b => decidable_of_iff (a = b) (by simp)

/-- Outcomes of the external collaborator calls a single run can make.  Each
call happens at most once per run with arguments determined by the agent
configuration, so a flat record of outcomes is a faithful oracle.  The
reference stubs of the source always give genCsvs = .ok true and
loadResult = .ok true, but the specification treats both steps as opaque
collaborators that may return false or raise, so the model quantifies over
their outcomes. -/
structure Behavior where
  neptuneSim : Except Exc (List EvalResult)
  s3Sim : Except Exc (List EvalResult)
  s3List : Except Exc Unit
  genCsvs : Except Exc Bool
  loadResult : Except Exc Bool
deriving Repr, DecidableEq

/-- A collaborator invocation, recording the arguments the code passed. -/
inductive Call where
  | simulate (actions : List String) (resource_arns : List String)
  | listObjectsV2 (bucket : String) (maxKeys : Nat) (prefixArg : Option String)
  | generateCsvsCall
  | batchLoadCall
deriving Repr, DecidableEq

/-- Collaborator-handle creation during construction: boto3.client calls at
usercase.py lines 48-50. -/
inductive InitEvent where
  | clientCreated (svc : String)
deriving Repr, DecidableEq

/-- The agent configuration after a successful construction (usercase.py
lines 28-66).  action_pfx renders self.prefix, s3_pfx renders
self.s3_prefix. -/
structure UseCaseAgent where
  principal_arn : String
  s3_bucket : String
  s3_pfx : String
  graph_arn : Option String
  neptune_mode : String
  action_pfx : String
  neptune_actions : List String
  s3_actions : List String
deriving Repr, DecidableEq

/-- Python s.strip with the single character "/": remove every leading and
trailing slash (usercase.py line 44). -/
def stripSlashes (s : String) : String :=
  String.mk (((s.data.dropWhile (fun c => c == '/')).reverse.dropWhile
    (fun c => c == '/')).reverse)

/-- The constructor UseCaseAgent.__init__ (usercase.py lines 28-66).  The
boto3 client handles for iam, s3 and sts are created at lines 48-50, before
the neptune_mode check at lines 53-58; the returned InitEvent list records
them in order.  An unrecognized mode raises a ValueError whose message
names the two accepted values, modelled as the .error result (the message
is rendered without the quote characters the source puts around graph and
db). -/
def mkUseCaseAgent (principal_arn s3_bucket s3_pfx : String)
    (graph_arn : Option String) (neptune_mode : String) :
    Except String UseCaseAgent × List InitEvent :=
  let events := [InitEvent.clientCreated "iam", InitEvent.clientCreated "s3",
    InitEvent.clientCreated "sts"]
  if neptune_mode = "graph" then
    (.ok { principal_arn := principal_arn, s3_bucket := s3_bucket,
           s3_pfx := stripSlashes s3_pfx, graph_arn := graph_arn,
           neptune_mode := neptune_mode, action_pfx := "neptune-graph",
           neptune_actions := ["neptune-graph:ReadDataViaQuery",
             "neptune-graph:WriteDataViaQuery",
             "neptune-graph:DeleteDataViaQuery"],
           s3_actions := ["s3:GetObject", "s3:ListBucket"] }, events)
  else if neptune_mode = "db" then
    (.ok { principal_arn := principal_arn, s3_bucket := s3_bucket,
           s3_pfx := stripSlashes s3_pfx, graph_arn := graph_arn,
           neptune_mode := neptune_mode, action_pfx := "neptune-db",
           neptune_actions := ["neptune-db:ReadDataViaQuery",
             "neptune-db:WriteDataViaQuery",
             "neptune-db:DeleteDataViaQuery"],
           s3_actions := ["s3:GetObject", "s3:ListBucket"] }, events)
  else
    (.error "neptune_mode must be graph or db", events)

/-- Python truthiness of the optional graph_arn string: None and the empty
string are falsy. -/
def truthyOpt : Option String → Bool
  | none => false
  | some s => s ≠ ""

/-- The resource-scope list built by check_neptune_permissions (usercase.py
lines 87-92): the wildcard when graph_arn is falsy, else exactly the
configured ARN. -/
def graphResourceArns (a : UseCaseAgent) : List String :=
  if truthyOpt a.graph_arn then [a.graph_arn.getD ""] else ["*"]

/-- The method simulate_permissions (usercase.py lines 68-83): performs the
IAM simulate_principal_policy call and returns its response; a ClientError
is logged and re-raised, so every failure propagates unchanged. -/
def UseCaseAgent.simulate_permissions (_a : UseCaseAgent)
    (outcome : Except Exc (List EvalResult))
    (actions resource_arns : List String) :
    Except Exc (List EvalResult) × List Call :=
  (outcome, [Call.simulate actions resource_arns])

/-- The denial list collected by check_neptune_permissions (usercase.py
lines 95-100): one (action, decision, matched statements) triple for each
evaluation result whose decision is not "allowed". -/
def neptuneDenied (results : List EvalResult) :
    List (String × String × List String) :=
  (results.filter (fun r => r.evalDecision ≠ "allowed")).map
    (fun r => (r.evalActionName, r.evalDecision, r.matchedStatements))

/-- The method check_neptune_permissions (usercase.py lines 85-105). -/
def UseCaseAgent.check_neptune_permissions (a : UseCaseAgent) (b : Behavior) :
    Except Exc Bool × List Call :=
  let resource_arns := graphResourceArns a
  match a.simulate_permissions b.neptuneSim a.neptune_actions resource_arns with
  | (.error e, calls) => (.error e, calls)
  | (.ok results, calls) => (.ok (neptuneDenied results).isEmpty, calls)

/-- The denial list collected by check_s3_permissions (usercase.py lines
117-120): one (action, decision) pair per non-allowed evaluation result. -/
def s3Denied (results : List EvalResult) : List (String × String) :=
  (results.filter (fun r => r.evalDecision ≠ "allowed")).map
    (fun r => (r.evalActionName, r.evalDecision))

/-- The bucket resource ARN built by check_s3_permissions (usercase.py line
110). -/
def bucketArn (a : UseCaseAgent) : String :=
  "arn:aws:s3:::" ++ a.s3_bucket

/-- The object resource ARN built by check_s3_permissions (usercase.py line
111): scoped under the prefix when one is configured, else all objects. -/
def objectArn (a : UseCaseAgent) : String :=
  if a.s3_pfx ≠ "" then
    "arn:aws:s3:::" ++ a.s3_bucket ++ "/" ++ a.s3_pfx ++ "/*"
  else
    "arn:aws:s3:::" ++ a.s3_bucket ++ "/*"

/-- The Prefix keyword argument of the listing probe (usercase.py lines
127-129): present exactly when a prefix is configured. -/
def s3PrefixArg (a : UseCaseAgent) : Option String :=
  if a.s3_pfx ≠ "" then some a.s3_pfx else none

/-- The method check_s3_permissions (usercase.py lines 107-136).  Only a
ClientError from the simulation call or from the listing probe is converted
to a false result; any other exception propagates. -/
def UseCaseAgent.check_s3_permissions (a : UseCaseAgent) (b : Behavior) :
    Except Exc Bool × List Call :=
  match a.simulate_permissions b.s3Sim a.s3_actions [bucketArn a, objectArn a] with
  | (.error e, calls) =>
      if e.isClientError then (.ok false, calls) else (.error e, calls)
  | (.ok results, calls) =>
      if ¬ (s3Denied results).isEmpty then (.ok false, calls)
      else
        let calls2 := calls ++ [Call.listObjectsV2 a.s3_bucket 1 (s3PrefixArg a)]
        match b.s3List with
        | .ok _ => (.ok true, calls2)
        | .error e =>
            if e.isClientError then (.ok false, calls2) else (.error e, calls2)

/-- The stub method generate_csvs (usercase.py lines 138-149), viewed as an
opaque collaborator call whose outcome the Behavior supplies. -/
def UseCaseAgent.generate_csvs (_a : UseCaseAgent) (b : Behavior) :
    Except Exc Bool × List Call :=
  (b.genCsvs, [Call.generateCsvsCall])

/-- The stub method batch_load (usercase.py lines 151-163), viewed as an
opaque collaborator call whose outcome the Behavior supplies. -/
def UseCaseAgent.batch_load (_a : UseCaseAgent) (b : Behavior) :
    Except Exc Bool × List Call :=
  (b.loadResult, [Call.batchLoadCall])

/-- One value of the summary dict of run: the "ok" boolean, the optional
"error" string, and the optional echoed "principal_arn". -/
structure Entry where
  ok : Bool
  error : Option String
  principal_arn : Option String
deriving Repr, DecidableEq

/-- The default entry {ok: False} given to every step but the first at the
start of run (usercase.py lines 172-175). -/
def defaultEntry : Entry := { ok := false, error := none, principal_arn := none }

/-- The summary dict of run (usercase.py lines 170-176); its five keys are
fixed at creation. -/
structure Summary where
  identify_principal : Entry
  check_neptune_permissions : Entry
  check_s3_permissions : Entry
  generate_csvs : Entry
  batch_load : Entry
deriving Repr, DecidableEq

/-- The (key, entry) pairs of the summary dict in the insertion order of the
keys, which Python dicts preserve under mutation of existing keys. -/
def Summary.toPairs (s : Summary) : List (String × Entry) :=
  [("identify_principal", s.identify_principal),
   ("check_neptune_permissions", s.check_neptune_permissions),
   ("check_s3_permissions", s.check_s3_permissions),
   ("generate_csvs", s.generate_csvs),
   ("batch_load", s.batch_load)]

/-- The summary as initialized at the start of run (usercase.py lines
170-176). -/
def initSummary (principal : String) : Summary :=
  { identify_principal := { ok := true, error := none, principal_arn := some principal },
    check_neptune_permissions := defaultEntry,
    check_s3_permissions := defaultEntry,
    generate_csvs := defaultEntry,
    batch_load := defaultEntry }

/-- The method run (usercase.py lines 165-226): the four pipeline steps in
fixed order, each collaborator call wrapped by a blanket exception handler
that stores str(e) under the "error" key of the step and returns the
summary; step 4 is additionally gated on the stored graph-permission
result (line 212).  The returned Call list is the concatenated collaborator
trace of the run. -/
def UseCaseAgent.run (a : UseCaseAgent) (b : Behavior) : Summary × List Call :=
  let s0 := initSummary a.principal_arn
  match a.check_neptune_permissions b with
  | (.error e, t1) =>
      ({ s0 with check_neptune_permissions :=
          { s0.check_neptune_permissions with error := some e.message } }, t1)
  | (.ok okNeptune, t1) =>
    let s1 := { s0 with check_neptune_permissions :=
        { s0.check_neptune_permissions with ok := okNeptune } }
    match a.check_s3_permissions b with
    | (.error e, t2) =>
        ({ s1 with check_s3_permissions :=
            { s1.check_s3_permissions with error := some e.message } }, t1 ++ t2)
    | (.ok okS3, t2) =>
      let s2 := { s1 with check_s3_permissions :=
          { s1.check_s3_permissions with ok := okS3 } }
      if ¬ okS3 then (s2, t1 ++ t2)
      else
        match a.generate_csvs b with
        | (.error e, t3) =>
            ({ s2 with generate_csvs :=
                { s2.generate_csvs with error := some e.message } }, t1 ++ t2 ++ t3)
        | (.ok okGen, t3) =>
          let s3 := { s2 with generate_csvs :=
              { s2.generate_csvs with ok := okGen } }
          if ¬ okGen then (s3, t1 ++ t2 ++ t3)
          else if ¬ s3.check_neptune_permissions.ok then (s3, t1 ++ t2 ++ t3)
          else
            match a.batch_load b with
            | (.error e, t4) =>
                ({ s3 with batch_load :=
                    { s3.batch_load with error := some e.message } },
                 t1 ++ t2 ++ t3 ++ t4)
            | (.ok okLoad, t4) =>
                ({ s3 with batch_load :=
                    { s3.batch_load with ok := okLoad } },
                 t1 ++ t2 ++ t3 ++ t4)

/-! ## Helper definitions and characterization lemmas -/

/-- The fixed key list of the summary dict, in insertion order. -/
def summaryKeys : List String :=
  ["identify_principal", "check_neptune_permissions", "check_s3_permissions",
   "generate_csvs", "batch_load"]

/-- The entry recorded for the identify step. -/
def idEntry (p : String) : Entry :=
  { ok := true, error := none, principal_arn := some p }

/-- The entry of a step whose method returned the boolean v. -/
def okEntry (v : Bool) : Entry :=
  { ok := v, error := none, principal_arn := none }

/-- The entry of a step whose collaborator call raised with message m. -/
def errEntry (m : String) : Entry :=
  { ok := false, error := some m, principal_arn := none }

lemma check_neptune_eq_error (a : UseCaseAgent) (b : Behavior) (e : Exc)
    (h : b.neptuneSim = .error e) :
    a.check_neptune_permissions b =
      (.error e, [Call.simulate a.neptune_actions (graphResourceArns a)]) := by
  simp [UseCaseAgent.check_neptune_permissions, UseCaseAgent.simulate_permissions, h]

lemma check_neptune_eq_ok (a : UseCaseAgent) (b : Behavior) (rs : List EvalResult)
    (h : b.neptuneSim = .ok rs) :
    a.check_neptune_permissions b =
      (.ok (neptuneDenied rs).isEmpty,
       [Call.simulate a.neptune_actions (graphResourceArns a)]) := by
  simp [UseCaseAgent.check_neptune_permissions, UseCaseAgent.simulate_permissions, h]

lemma check_neptune_snd (a : UseCaseAgent) (b : Behavior) :
    (a.check_neptune_permissions b).2 =
      [Call.simulate a.neptune_actions (graphResourceArns a)] := by
  cases h : b.neptuneSim with
  | error e => rw [check_neptune_eq_error a b e h]
  | ok rs => rw [check_neptune_eq_ok a b rs h]

lemma check_neptune_error_inv (a : UseCaseAgent) (b : Behavior) (e : Exc)
    (h : (a.check_neptune_permissions b).1 = .error e) :
    b.neptuneSim = .error e := by
  cases hb : b.neptuneSim with
  | error e2 =>
      rw [check_neptune_eq_error a b e2 hb] at h
      simpa using h
  | ok rs =>
      rw [check_neptune_eq_ok a b rs hb] at h
      simp at h

lemma check_s3_snd_shape (a : UseCaseAgent) (b : Behavior) :
    (a.check_s3_permissions b).2 =
      [Call.simulate a.s3_actions [bucketArn a, objectArn a]] ∨
    (a.check_s3_permissions b).2 =
      [Call.simulate a.s3_actions [bucketArn a, objectArn a],
       Call.listObjectsV2 a.s3_bucket 1 (s3PrefixArg a)] := by
  cases hb : b.s3Sim with
  | error e =>
      left
      cases he : e.isClientError <;>
        simp [UseCaseAgent.check_s3_permissions, UseCaseAgent.simulate_permissions, hb, he]
  | ok rs =>
      cases hd : (s3Denied rs).isEmpty with
      | false =>
          left
          simp [UseCaseAgent.check_s3_permissions, UseCaseAgent.simulate_permissions, hb, hd]
      | true =>
          right
          cases hl : b.s3List with
          | ok u =>
              simp [UseCaseAgent.check_s3_permissions, UseCaseAgent.simulate_permissions,
                hb, hd, hl]
          | error e =>
              cases he : e.isClientError <;>
                simp [UseCaseAgent.check_s3_permissions, UseCaseAgent.simulate_permissions,
                  hb, hd, hl, he]

lemma check_s3_no_gen_call (a : UseCaseAgent) (b : Behavior) :
    Call.generateCsvsCall ∉ (a.check_s3_permissions b).2 ∧
    Call.batchLoadCall ∉ (a.check_s3_permissions b).2 := by
  rcases check_s3_snd_shape a b with h | h <;> rw [h] <;> simp

lemma check_s3_error_inv (a : UseCaseAgent) (b : Behavior) (e : Exc)
    (h : (a.check_s3_permissions b).1 = .error e) :
    e.isClientError = false ∧ (b.s3Sim = .error e ∨ b.s3List = .error e) := by
  cases hb : b.s3Sim with
  | error e2 =>
      cases he : e2.isClientError <;>
        simp [UseCaseAgent.check_s3_permissions, UseCaseAgent.simulate_permissions,
          hb, he] at h
      subst h
      exact ⟨he, Or.inl rfl⟩
  | ok rs =>
      cases hd : (s3Denied rs).isEmpty with
      | false =>
          simp [UseCaseAgent.check_s3_permissions, UseCaseAgent.simulate_permissions,
            hb, hd] at h
      | true =>
          cases hl : b.s3List with
          | ok u =>
              simp [UseCaseAgent.check_s3_permissions, UseCaseAgent.simulate_permissions,
                hb, hd, hl] at h
          | error e2 =>
              cases he : e2.isClientError <;>
                simp [UseCaseAgent.check_s3_permissions, UseCaseAgent.simulate_permissions,
                  hb, hd, hl, he] at h
              subst h
              exact ⟨he, Or.inr rfl⟩

lemma run_eq_of_neptune_error (a : UseCaseAgent) (b : Behavior) (e : Exc)
    (t1 : List Call) (h : a.check_neptune_permissions b = (.error e, t1)) :
    a.run b =
      ({ identify_principal := idEntry a.principal_arn,
         check_neptune_permissions := errEntry e.message,
         check_s3_permissions := defaultEntry,
         generate_csvs := defaultEntry,
         batch_load := defaultEntry }, t1) := by
  simp [UseCaseAgent.run, h, initSummary, idEntry, errEntry, defaultEntry]

lemma run_eq_of_s3_error (a : UseCaseAgent) (b : Behavior) (v : Bool) (e : Exc)
    (t1 t2 : List Call) (hN : a.check_neptune_permissions b = (.ok v, t1))
    (hS : a.check_s3_permissions b = (.error e, t2)) :
    a.run b =
      ({ identify_principal := idEntry a.principal_arn,
         check_neptune_permissions := okEntry v,
         check_s3_permissions := errEntry e.message,
         generate_csvs := defaultEntry,
         batch_load := defaultEntry }, t1 ++ t2) := by
  simp [UseCaseAgent.run, hN, hS, initSummary, idEntry, okEntry, errEntry, defaultEntry]

lemma run_eq_of_s3_false (a : UseCaseAgent) (b : Behavior) (v : Bool)
    (t1 t2 : List Call) (hN : a.check_neptune_permissions b = (.ok v, t1))
    (hS : a.check_s3_permissions b = (.ok false, t2)) :
    a.run b =
      ({ identify_principal := idEntry a.principal_arn,
         check_neptune_permissions := okEntry v,
         check_s3_permissions := okEntry false,
         generate_csvs := defaultEntry,
         batch_load := defaultEntry }, t1 ++ t2) := by
  simp [UseCaseAgent.run, hN, hS, initSummary, idEntry, okEntry, defaultEntry]

lemma run_eq_of_gen_error (a : UseCaseAgent) (b : Behavior) (v : Bool) (e : Exc)
    (t1 t2 : List Call) (hN : a.check_neptune_permissions b = (.ok v, t1))
    (hS : a.check_s3_permissions b = (.ok true, t2))
    (hG : b.genCsvs = .error e) :
    a.run b =
      ({ identify_principal := idEntry a.principal_arn,
         check_neptune_permissions := okEntry v,
         check_s3_permissions := okEntry true,
         generate_csvs := errEntry e.message,
         batch_load := defaultEntry }, t1 ++ t2 ++ [Call.generateCsvsCall]) := by
  simp [UseCaseAgent.run, UseCaseAgent.generate_csvs, hN, hS, hG, initSummary,
    idEntry, okEntry, errEntry, defaultEntry]

lemma run_eq_of_gen_false (a : UseCaseAgent) (b : Behavior) (v : Bool)
    (t1 t2 : List Call) (hN : a.check_neptune_permissions b = (.ok v, t1))
    (hS : a.check_s3_permissions b = (.ok true, t2))
    (hG : b.genCsvs = .ok false) :
    a.run b =
      ({ identify_principal := idEntry a.principal_arn,
         check_neptune_permissions := okEntry v,
         check_s3_permissions := okEntry true,
         generate_csvs := okEntry false,
         batch_load := defaultEntry }, t1 ++ t2 ++ [Call.generateCsvsCall]) := by
  simp [UseCaseAgent.run, UseCaseAgent.generate_csvs, hN, hS, hG, initSummary,
    idEntry, okEntry, defaultEntry]

lemma run_eq_of_gate (a : UseCaseAgent) (b : Behavior)
    (t1 t2 : List Call) (hN : a.check_neptune_permissions b = (.ok false, t1))
    (hS : a.check_s3_permissions b = (.ok true, t2))
    (hG : b.genCsvs = .ok true) :
    a.run b =
      ({ identify_principal := idEntry a.principal_arn,
         check_neptune_permissions := okEntry false,
         check_s3_permissions := okEntry true,
         generate_csvs := okEntry true,
         batch_load := defaultEntry }, t1 ++ t2 ++ [Call.generateCsvsCall]) := by
  simp [UseCaseAgent.run, UseCaseAgent.generate_csvs, hN, hS, hG, initSummary,
    idEntry, okEntry, defaultEntry]

lemma run_eq_of_load_error (a : UseCaseAgent) (b : Behavior) (e : Exc)
    (t1 t2 : List Call) (hN : a.check_neptune_permissions b = (.ok true, t1))
    (hS : a.check_s3_permissions b = (.ok true, t2))
    (hG : b.genCsvs = .ok true) (hL : b.loadResult = .error e) :
    a.run b =
      ({ identify_principal := idEntry a.principal_arn,
         check_neptune_permissions := okEntry true,
         check_s3_permissions := okEntry true,
         generate_csvs := okEntry true,
         batch_load := errEntry e.message },
       t1 ++ t2 ++ [Call.generateCsvsCall] ++ [Call.batchLoadCall]) := by
  simp [UseCaseAgent.run, UseCaseAgent.generate_csvs, UseCaseAgent.batch_load,
    hN, hS, hG, hL, initSummary, idEntry, okEntry, errEntry, defaultEntry]

lemma run_eq_of_load_ok (a : UseCaseAgent) (b : Behavior) (w : Bool)
    (t1 t2 : List Call) (hN : a.check_neptune_permissions b = (.ok true, t1))
    (hS : a.check_s3_permissions b = (.ok true, t2))
    (hG : b.genCsvs = .ok true) (hL : b.loadResult = .ok w) :
    a.run b =
      ({ identify_principal := idEntry a.principal_arn,
         check_neptune_permissions := okEntry true,
         check_s3_permissions := okEntry true,
         generate_csvs := okEntry true,
         batch_load := okEntry w },
       t1 ++ t2 ++ [Call.generateCsvsCall] ++ [Call.batchLoadCall]) := by
  simp [UseCaseAgent.run, UseCaseAgent.generate_csvs, UseCaseAgent.batch_load,
    hN, hS, hG, hL, initSummary, idEntry, okEntry, defaultEntry]

/-- Exhaustive case analysis of run over the collaborator outcomes: every
run falls into one of the eight terminal scenarios of the pipeline, with
the summary and trace it produces there. -/
lemma run_scenarios (a : UseCaseAgent) (b : Behavior) :
    (∃ e t1, a.check_neptune_permissions b = (.error e, t1) ∧
      a.run b =
        ({ identify_principal := idEntry a.principal_arn,
           check_neptune_permissions := errEntry e.message,
           check_s3_permissions := defaultEntry, generate_csvs := defaultEntry,
           batch_load := defaultEntry }, t1)) ∨
    (∃ v e t1 t2, a.check_neptune_permissions b = (.ok v, t1) ∧
      a.check_s3_permissions b = (.error e, t2) ∧
      a.run b =
        ({ identify_principal := idEntry a.principal_arn,
           check_neptune_permissions := okEntry v,
           check_s3_permissions := errEntry e.message,
           generate_csvs := defaultEntry, batch_load := defaultEntry },
         t1 ++ t2)) ∨
    (∃ v t1 t2, a.check_neptune_permissions b = (.ok v, t1) ∧
      a.check_s3_permissions b = (.ok false, t2) ∧
      a.run b =
        ({ identify_principal := idEntry a.principal_arn,
           check_neptune_permissions := okEntry v,
           check_s3_permissions := okEntry false,
           generate_csvs := defaultEntry, batch_load := defaultEntry },
         t1 ++ t2)) ∨
    (∃ v e t1 t2, a.check_neptune_permissions b = (.ok v, t1) ∧
      a.check_s3_permissions b = (.ok true, t2) ∧ b.genCsvs = .error e ∧
      a.run b =
        ({ identify_principal := idEntry a.principal_arn,
           check_neptune_permissions := okEntry v,
           check_s3_permissions := okEntry true,
           generate_csvs := errEntry e.message, batch_load := defaultEntry },
         t1 ++ t2 ++ [Call.generateCsvsCall])) ∨
    (∃ v t1 t2, a.check_neptune_permissions b = (.ok v, t1) ∧
      a.check_s3_permissions b = (.ok true, t2) ∧ b.genCsvs = .ok false ∧
      a.run b =
        ({ identify_principal := idEntry a.principal_arn,
           check_neptune_permissions := okEntry v,
           check_s3_permissions := okEntry true,
           generate_csvs := okEntry false, batch_load := defaultEntry },
         t1 ++ t2 ++ [Call.generateCsvsCall])) ∨
    (∃ t1 t2, a.check_neptune_permissions b = (.ok false, t1) ∧
      a.check_s3_permissions b = (.ok true, t2) ∧ b.genCsvs = .ok true ∧
      a.run b =
        ({ identify_principal := idEntry a.principal_arn,
           check_neptune_permissions := okEntry false,
           check_s3_permissions := okEntry true,
           generate_csvs := okEntry true, batch_load := defaultEntry },
         t1 ++ t2 ++ [Call.generateCsvsCall])) ∨
    (∃ e t1 t2, a.check_neptune_permissions b = (.ok true, t1) ∧
      a.check_s3_permissions b = (.ok true, t2) ∧ b.genCsvs = .ok true ∧
      b.loadResult = .error e ∧
      a.run b =
        ({ identify_principal := idEntry a.principal_arn,
           check_neptune_permissions := okEntry true,
           check_s3_permissions := okEntry true,
           generate_csvs := okEntry true, batch_load := errEntry e.message },
         t1 ++ t2 ++ [Call.generateCsvsCall] ++ [Call.batchLoadCall])) ∨
    (∃ w t1 t2, a.check_neptune_permissions b = (.ok true, t1) ∧
      a.check_s3_permissions b = (.ok true, t2) ∧ b.genCsvs = .ok true ∧
      b.loadResult = .ok w ∧
      a.run b =
        ({ identify_principal := idEntry a.principal_arn,
           check_neptune_permissions := okEntry true,
           check_s3_permissions := okEntry true,
           generate_csvs := okEntry true, batch_load := okEntry w },
         t1 ++ t2 ++ [Call.generateCsvsCall] ++ [Call.batchLoadCall])) := by
  rcases hN : a.check_neptune_permissions b with ⟨rN, t1⟩
  cases rN with
  | error e =>
      exact Or.inl ⟨e, t1, rfl, run_eq_of_neptune_error a b e t1 hN⟩
  | ok v =>
      rcases hS : a.check_s3_permissions b with ⟨rS, t2⟩
      cases rS with
      | error e =>
          exact Or.inr (Or.inl ⟨v, e, t1, t2, rfl, rfl,
            run_eq_of_s3_error a b v e t1 t2 hN hS⟩)
      | ok okS =>
          cases okS with
          | false =>
              exact Or.inr (Or.inr (Or.inl ⟨v, t1, t2, rfl, rfl,
                run_eq_of_s3_false a b v t1 t2 hN hS⟩))
          | true =>
              cases hG : b.genCsvs with
              | error e =>
                  exact Or.inr (Or.inr (Or.inr (Or.inl ⟨v, e, t1, t2, rfl, rfl, rfl,
                    run_eq_of_gen_error a b v e t1 t2 hN hS hG⟩)))
              | ok okG =>
                  cases okG with
                  | false =>
                      exact Or.inr (Or.inr (Or.inr (Or.inr (Or.inl
                        ⟨v, t1, t2, rfl, rfl, rfl,
                         run_eq_of_gen_false a b v t1 t2 hN hS hG⟩))))
                  | true =>
                      cases v with
                      | false =>
                          exact Or.inr (Or.inr (Or.inr (Or.inr (Or.inr (Or.inl
                            ⟨t1, t2, rfl, rfl, rfl,
                             run_eq_of_gate a b t1 t2 hN hS hG⟩)))))
                      | true =>
                          cases hL : b.loadResult with
                          | error e =>
                              exact Or.inr (Or.inr (Or.inr (Or.inr (Or.inr
                                (Or.inr (Or.inl ⟨e, t1, t2, rfl, rfl, rfl, rfl,
                                 run_eq_of_load_error a b e t1 t2 hN hS hG hL⟩))))))
                          | ok w =>
                              exact Or.inr (Or.inr (Or.inr (Or.inr (Or.inr
                                (Or.inr (Or.inr ⟨w, t1, t2, rfl, rfl, rfl, rfl,
                                 run_eq_of_load_ok a b w t1 t2 hN hS hG hL⟩))))))

/-! ## Concrete instances used by counterexamples and witnesses -/

/-- A concretely configured agent (graph mode, graph ARN set, prefix set),
as produced by the constructor. -/
def sampleAgent : UseCaseAgent :=
  { principal_arn := "p-arn", s3_bucket := "bkt", s3_pfx := "a/b",
    graph_arn := some "g-arn", neptune_mode := "graph",
    action_pfx := "neptune-graph",
    neptune_actions := ["neptune-graph:ReadDataViaQuery",
      "neptune-graph:WriteDataViaQuery", "neptune-graph:DeleteDataViaQuery"],
    s3_actions := ["s3:GetObject", "s3:ListBucket"] }

/-- sampleAgent is exactly what the constructor builds from its inputs. -/
lemma sampleAgent_eq_mk :
    mkUseCaseAgent "p-arn" "bkt" "/a/b/" (some "g-arn") "graph" =
      (.ok sampleAgent,
       [InitEvent.clientCreated "iam", InitEvent.clientCreated "s3",
        InitEvent.clientCreated "sts"]) := by
  decide

/-- An evaluation result with decision "allowed". -/
def allowedFor (act : String) : EvalResult :=
  { evalActionName := act, evalDecision := "allowed", matchedStatements := [] }

/-- An evaluation result with a denying decision. -/
def deniedFor (act : String) : EvalResult :=
  { evalActionName := act, evalDecision := "implicitDeny",
    matchedStatements := ["stmt1"] }

/-- Collaborator outcomes of a fully successful run. -/
def happyBehavior : Behavior :=
  { neptuneSim := .ok [allowedFor "neptune-graph:ReadDataViaQuery",
      allowedFor "neptune-graph:WriteDataViaQuery",
      allowedFor "neptune-graph:DeleteDataViaQuery"],
    s3Sim := .ok [allowedFor "s3:GetObject", allowedFor "s3:ListBucket"],
    s3List := .ok (), genCsvs := .ok true, loadResult := .ok true }

/-- Like happyBehavior, but the graph-permission simulation denies one
action. -/
def graphDeniedBehavior : Behavior :=
  { happyBehavior with
    neptuneSim := .ok [deniedFor "neptune-graph:WriteDataViaQuery"] }

/-- Like happyBehavior, but the graph-permission simulation raises a
non-ClientError exception. -/
def nepRaiseBehavior : Behavior :=
  { happyBehavior with neptuneSim := .error (.other "boom") }

/-- Like happyBehavior, but the storage simulation raises a non-ClientError
exception. -/
def s3RaiseBehavior : Behavior :=
  { happyBehavior with s3Sim := .error (.other "endpoint unreachable") }

/-- Like happyBehavior, but the storage simulation raises a ClientError. -/
def s3ClientRaiseBehavior : Behavior :=
  { happyBehavior with s3Sim := .error (.clientError "access denied") }

/-- Like happyBehavior, but the listing probe raises a non-ClientError
exception. -/
def probeRaiseBehavior : Behavior :=
  { happyBehavior with s3List := .error (.other "read timeout") }

/-- An agent whose graph_arn is the empty string rather than None. -/
def emptyArnAgent : UseCaseAgent := { sampleAgent with graph_arn := some "" }

/-! ## Claims -/

/-- C2, counterexample: at neptune_mode = "bogus" the construction does fail
with the configuration error, but the IAM, S3 and STS collaborator handles
have been created before the failure, refuting the claim that no
collaborator handles are created. -/
theorem c2_counterexample :
    (mkUseCaseAgent "p-arn" "bkt" "" none "bogus").1 =
      Except.error "neptune_mode must be graph or db" ∧
    (mkUseCaseAgent "p-arn" "bkt" "" none "bogus").2 =
      [InitEvent.clientCreated "iam", InitEvent.clientCreated "s3",
       InitEvent.clientCreated "sts"] ∧
    (mkUseCaseAgent "p-arn" "bkt" "" none "bogus").2 ≠ [] := by
  decide

/-- C2 (amended): for every mode-flag value other than "graph" and "db",
constructing the agent fails with the configuration error; the IAM, S3 and
STS collaborator handles are, however, created before the mode check. -/
theorem c2_invalid_mode_fails (p bkt pfx : String) (g : Option String)
    (m : String) (h1 : m ≠ "graph") (h2 : m ≠ "db") :
    mkUseCaseAgent p bkt pfx g m =
      (Except.error "neptune_mode must be graph or db",
       [InitEvent.clientCreated "iam", InitEvent.clientCreated "s3",
        InitEvent.clientCreated "sts"]) := by
  simp [mkUseCaseAgent, h1, h2]

/-- Witness for c2_invalid_mode_fails at the concrete mode "bogus". -/
theorem c2_invalid_mode_fails_witness :
    mkUseCaseAgent "p-arn" "bkt" "" none "bogus" =
      (Except.error "neptune_mode must be graph or db",
       [InitEvent.clientCreated "iam", InitEvent.clientCreated "s3",
        InitEvent.clientCreated "sts"]) :=
  c2_invalid_mode_fails "p-arn" "bkt" "" none "bogus" (by decide) (by decide)

/-- C6: the resource-scope list passed to the permission-simulation
collaborator by checkGraphPermissions is a single-element list: the
wildcard when no graph resource identifier is configured (None or empty),
and exactly the configured identifier otherwise. -/
theorem c6_resource_scope (a : UseCaseAgent) (b : Behavior) :
    (a.check_neptune_permissions b).2 =
      [Call.simulate a.neptune_actions (graphResourceArns a)] ∧
    (truthyOpt a.graph_arn = false → graphResourceArns a = ["*"]) ∧
    (∀ g, a.graph_arn = some g → g ≠ "" → graphResourceArns a = [g]) := by
  refine ⟨check_neptune_snd a b, fun h => ?_, fun g hg hne => ?_⟩
  · simp [graphResourceArns, h]
  · simp [graphResourceArns, truthyOpt, hg, hne]

/-- Witness for c6_resource_scope at the concretely configured agent. -/
theorem c6_resource_scope_witness : graphResourceArns sampleAgent = ["g-arn"] :=
  (c6_resource_scope sampleAgent happyBehavior).2.2 "g-arn" rfl (by decide)

/-- C10: a graph_arn that is the empty string is treated as not configured:
the wildcard scope is passed to simulation. -/
theorem c10_empty_graph_arn (a : UseCaseAgent) (b : Behavior)
    (h : a.graph_arn = some "") :
    graphResourceArns a = ["*"] ∧
    (a.check_neptune_permissions b).2 =
      [Call.simulate a.neptune_actions ["*"]] := by
  have hg : graphResourceArns a = ["*"] := by
    simp [graphResourceArns, truthyOpt, h]
  exact ⟨hg, by rw [check_neptune_snd, hg]⟩

/-- Witness for c10_empty_graph_arn at a concrete agent with empty
graph_arn. -/
theorem c10_empty_graph_arn_witness :
    graphResourceArns emptyArnAgent = ["*"] ∧
    (emptyArnAgent.check_neptune_permissions happyBehavior).2 =
      [Call.simulate emptyArnAgent.neptune_actions ["*"]] :=
  c10_empty_graph_arn emptyArnAgent happyBehavior rfl

/-- C7, counterexample: when the simulation call inside
checkStoragePermissions raises a non-ClientError exception, the method does
not return false; the exception propagates, refuting the claim for
arbitrary raises. -/
theorem c7_counterexample :
    s3RaiseBehavior.s3Sim = Except.error (Exc.other "endpoint unreachable") ∧
    (sampleAgent.check_s3_permissions s3RaiseBehavior).1 =
      Except.error (Exc.other "endpoint unreachable") ∧
    (sampleAgent.check_s3_permissions s3RaiseBehavior).1 ≠ Except.ok false := by
  decide

/-- C7 (amended): when the simulation call inside checkStoragePermissions
raises a ClientError, the method returns false without propagating; a
non-ClientError exception propagates to the caller instead. -/
theorem c7_sim_raise (a : UseCaseAgent) (b : Behavior) (e : Exc)
    (h : b.s3Sim = .error e) :
    (e.isClientError = true → (a.check_s3_permissions b).1 = Except.ok false) ∧
    (e.isClientError = false → (a.check_s3_permissions b).1 = Except.error e) := by
  constructor <;> intro he <;>
    simp [UseCaseAgent.check_s3_permissions, UseCaseAgent.simulate_permissions, h, he]

/-- Witness for c7_sim_raise at a concrete ClientError raise. -/
theorem c7_sim_raise_witness :
    (sampleAgent.check_s3_permissions s3ClientRaiseBehavior).1 = Except.ok false :=
  (c7_sim_raise sampleAgent s3ClientRaiseBehavior (Exc.clientError "access denied")
    rfl).1 rfl

lemma neptuneDenied_mem_of_denied (rs : List EvalResult) (r : EvalResult)
    (hr : r ∈ rs) (hd : r.evalDecision ≠ "allowed") :
    (r.evalActionName, r.evalDecision, r.matchedStatements) ∈ neptuneDenied rs :=
  List.mem_map_of_mem _ (List.mem_filter.mpr ⟨hr, by simp [hd]⟩)

/-- C5: with a successful simulation response, checkGraphPermissions
returns true iff every decision equals "allowed"; any denial makes it
return false; each denied result contributes its
(action, decision, matched statements) triple to the denial list, and when
the response carries pairwise distinct action names (as one record per
simulated action), a denied action occurs in the denial list exactly
once. -/
theorem c5_graph_decisions (a : UseCaseAgent) (b : Behavior)
    (rs : List EvalResult) (h : b.neptuneSim = .ok rs) :
    ((a.check_neptune_permissions b).1 = Except.ok true ↔
      ∀ r ∈ rs, r.evalDecision = "allowed") ∧
    ((∃ r ∈ rs, r.evalDecision ≠ "allowed") →
      (a.check_neptune_permissions b).1 = Except.ok false) ∧
    (∀ r ∈ rs, r.evalDecision ≠ "allowed" →
      (r.evalActionName, r.evalDecision, r.matchedStatements) ∈ neptuneDenied rs) ∧
    ((rs.map EvalResult.evalActionName).Nodup →
      ∀ r ∈ rs, r.evalDecision ≠ "allowed" →
      ((neptuneDenied rs).map (fun d => d.1)).count r.evalActionName = 1) := by
  refine ⟨?_, ?_, fun r hr hd => neptuneDenied_mem_of_denied rs r hr hd, ?_⟩
  · simp [check_neptune_eq_ok a b rs h, neptuneDenied, List.isEmpty_iff,
      List.filter_eq_nil_iff]
  · rintro ⟨r, hr, hd⟩
    have hm := neptuneDenied_mem_of_denied rs r hr hd
    simp only [check_neptune_eq_ok a b rs h]
    cases hi : (neptuneDenied rs).isEmpty with
    | false => rfl
    | true =>
        rw [List.isEmpty_iff] at hi
        rw [hi] at hm
        simp at hm
  · intro hnd r hr hd
    have hmapeq : (neptuneDenied rs).map (fun d => d.1) =
        (rs.filter (fun r => r.evalDecision ≠ "allowed")).map
          EvalResult.evalActionName := by
      simp [neptuneDenied, List.map_map]
    rw [hmapeq]
    refine List.count_eq_one_of_mem ?_ ?_
    · exact ((List.filter_sublist rs).map EvalResult.evalActionName).nodup hnd
    · exact List.mem_map_of_mem _ (List.mem_filter.mpr ⟨hr, by simp [hd]⟩)

/-- Witness for c5_graph_decisions at a concrete denying response. -/
theorem c5_graph_decisions_witness :
    (sampleAgent.check_neptune_permissions graphDeniedBehavior).1 =
      Except.ok false :=
  (c5_graph_decisions sampleAgent graphDeniedBehavior
    [deniedFor "neptune-graph:WriteDataViaQuery"] rfl).2.1
    ⟨deniedFor "neptune-graph:WriteDataViaQuery", by decide, by decide⟩

lemma s3Denied_nil_iff (rs : List EvalResult) :
    s3Denied rs = [] ↔ ∀ r ∈ rs, r.evalDecision = "allowed" := by
  simp [s3Denied, List.filter_eq_nil_iff]

lemma check_s3_fst_sim_err (a : UseCaseAgent) (b : Behavior) (e : Exc)
    (hb : b.s3Sim = .error e) :
    (a.check_s3_permissions b).1 =
      if e.isClientError then Except.ok false else Except.error e := by
  cases he : e.isClientError <;>
    simp [UseCaseAgent.check_s3_permissions, UseCaseAgent.simulate_permissions,
      hb, he]

lemma check_s3_fst_sim_denied (a : UseCaseAgent) (b : Behavior)
    (rs : List EvalResult) (hb : b.s3Sim = .ok rs)
    (hd : (s3Denied rs).isEmpty = false) :
    (a.check_s3_permissions b).1 = Except.ok false := by
  simp [UseCaseAgent.check_s3_permissions, UseCaseAgent.simulate_permissions,
    hb, hd]

lemma check_s3_fst_probe_ok (a : UseCaseAgent) (b : Behavior)
    (rs : List EvalResult) (hb : b.s3Sim = .ok rs)
    (hd : (s3Denied rs).isEmpty = true) (hl : b.s3List = .ok ()) :
    (a.check_s3_permissions b).1 = Except.ok true := by
  simp [UseCaseAgent.check_s3_permissions, UseCaseAgent.simulate_permissions,
    hb, hd, hl]

lemma check_s3_fst_probe_err (a : UseCaseAgent) (b : Behavior)
    (rs : List EvalResult) (e : Exc) (hb : b.s3Sim = .ok rs)
    (hd : (s3Denied rs).isEmpty = true) (hl : b.s3List = .error e) :
    (a.check_s3_permissions b).1 =
      if e.isClientError then Except.ok false else Except.error e := by
  cases he : e.isClientError <;>
    simp [UseCaseAgent.check_s3_permissions, UseCaseAgent.simulate_permissions,
      hb, hd, hl, he]

lemma s3Denied_isEmpty_false_of_denied (rs : List EvalResult) (r : EvalResult)
    (hr : r ∈ rs) (hdny : r.evalDecision ≠ "allowed") :
    (s3Denied rs).isEmpty = false := by
  have hm : (r.evalActionName, r.evalDecision) ∈ s3Denied rs :=
    List.mem_map_of_mem _ (List.mem_filter.mpr ⟨hr, by simp [hdny]⟩)
  cases hi : (s3Denied rs).isEmpty with
  | false => rfl
  | true =>
      rw [List.isEmpty_iff] at hi
      rw [hi] at hm
      simp at hm

/-- C8 (amended): checkStoragePermissions returns true exactly when the
simulation succeeded with every decision "allowed" AND the listing probe
succeeded; any denied decision yields false, and a raising probe yields
false when the exception is a ClientError, while a non-ClientError
exception from the probe propagates instead of yielding false. -/
theorem c8_storage_check (a : UseCaseAgent) (b : Behavior) :
    ((a.check_s3_permissions b).1 = Except.ok true ↔
      ((∃ rs, b.s3Sim = .ok rs ∧ ∀ r ∈ rs, r.evalDecision = "allowed") ∧
        b.s3List = .ok ())) ∧
    (∀ rs, b.s3Sim = .ok rs → (∃ r ∈ rs, r.evalDecision ≠ "allowed") →
      (a.check_s3_permissions b).1 = Except.ok false) ∧
    (∀ rs e, b.s3Sim = .ok rs → (∀ r ∈ rs, r.evalDecision = "allowed") →
      b.s3List = .error e →
      ((e.isClientError = true →
          (a.check_s3_permissions b).1 = Except.ok false) ∧
       (e.isClientError = false →
          (a.check_s3_permissions b).1 = Except.error e))) := by
  refine ⟨⟨?_, ?_⟩, ?_, ?_⟩
  · intro h
    cases hb : b.s3Sim with
    | error e =>
        rw [check_s3_fst_sim_err a b e hb] at h
        cases he : e.isClientError <;> rw [he] at h <;> simp at h
    | ok rs =>
        cases hd : (s3Denied rs).isEmpty with
        | false =>
            rw [check_s3_fst_sim_denied a b rs hb hd] at h
            simp at h
        | true =>
            cases hl : b.s3List with
            | ok u =>
                rw [List.isEmpty_iff] at hd
                exact ⟨⟨rs, rfl, (s3Denied_nil_iff rs).mp hd⟩, by cases u; rfl⟩
            | error e =>
                rw [check_s3_fst_probe_err a b rs e hb hd hl] at h
                cases he : e.isClientError <;> rw [he] at h <;> simp at h
  · rintro ⟨⟨rs, hb, hall⟩, hl⟩
    have hd : (s3Denied rs).isEmpty = true := by
      rw [List.isEmpty_iff]
      exact (s3Denied_nil_iff rs).mpr hall
    exact check_s3_fst_probe_ok a b rs hb hd hl
  · rintro rs hb ⟨r, hr, hdny⟩
    exact check_s3_fst_sim_denied a b rs hb
      (s3Denied_isEmpty_false_of_denied rs r hr hdny)
  · intro rs e hb hall hl
    have hd : (s3Denied rs).isEmpty = true := by
      rw [List.isEmpty_iff]
      exact (s3Denied_nil_iff rs).mpr hall
    constructor <;> intro he <;>
      rw [check_s3_fst_probe_err a b rs e hb hd hl, he] <;> simp

/-- Witness for c8_storage_check: the positive direction at a concrete
all-allowed response with a succeeding probe. -/
theorem c8_storage_check_witness :
    (sampleAgent.check_s3_permissions happyBehavior).1 = Except.ok true :=
  (c8_storage_check sampleAgent happyBehavior).1.mpr
    ⟨⟨[allowedFor "s3:GetObject", allowedFor "s3:ListBucket"], rfl, by decide⟩,
     rfl⟩

/-- C8, counterexample: every simulated decision is "allowed" (the denial
list is empty) and the probe raises, yet checkStoragePermissions does not
return false: the non-ClientError probe exception propagates. -/
theorem c8_counterexample :
    s3Denied [allowedFor "s3:GetObject", allowedFor "s3:ListBucket"] = [] ∧
    probeRaiseBehavior.s3Sim =
      Except.ok [allowedFor "s3:GetObject", allowedFor "s3:ListBucket"] ∧
    probeRaiseBehavior.s3List = Except.error (Exc.other "read timeout") ∧
    (sampleAgent.check_s3_permissions probeRaiseBehavior).1 ≠ Except.ok false ∧
    (sampleAgent.check_s3_permissions probeRaiseBehavior).1 =
      Except.error (Exc.other "read timeout") := by
  decide

lemma genCall_not_mem_neptune_trace (a : UseCaseAgent) (b : Behavior) :
    Call.generateCsvsCall ∉ (a.check_neptune_permissions b).2 := by
  rw [check_neptune_snd]
  simp

lemma loadCall_not_mem_neptune_trace (a : UseCaseAgent) (b : Behavior) :
    Call.batchLoadCall ∉ (a.check_neptune_permissions b).2 := by
  rw [check_neptune_snd]
  simp

lemma genCall_not_mem_checks (a : UseCaseAgent) (b : Behavior) :
    Call.generateCsvsCall ∉
      (a.check_neptune_permissions b).2 ++ (a.check_s3_permissions b).2 := by
  intro hmem
  rcases List.mem_append.mp hmem with hm | hm
  · exact genCall_not_mem_neptune_trace a b hm
  · exact (check_s3_no_gen_call a b).1 hm

lemma loadCall_not_mem_checks (a : UseCaseAgent) (b : Behavior) :
    Call.batchLoadCall ∉
      (a.check_neptune_permissions b).2 ++ (a.check_s3_permissions b).2 := by
  intro hmem
  rcases List.mem_append.mp hmem with hm | hm
  · exact loadCall_not_mem_neptune_trace a b hm
  · exact (check_s3_no_gen_call a b).2 hm

lemma loadCall_not_mem_checks_gen (a : UseCaseAgent) (b : Behavior) :
    Call.batchLoadCall ∉
      (a.check_neptune_permissions b).2 ++ (a.check_s3_permissions b).2 ++
        [Call.generateCsvsCall] := by
  intro hmem
  rcases List.mem_append.mp hmem with hm | hm
  · exact loadCall_not_mem_checks a b hm
  · simp at hm

lemma neptune_no_raise_of_check_ok (a : UseCaseAgent) (b : Behavior) (v : Bool)
    (t1 : List Call) (hN : a.check_neptune_permissions b = (.ok v, t1)) :
    ∀ e, b.neptuneSim ≠ .error e := by
  intro e he
  rw [check_neptune_eq_error a b e he] at hN
  simpa using congrArg Prod.fst hN

/-- C4: whenever the recorded graph-permission result in the summary is
false, the bulk-load collaborator is never invoked and the bulk-load entry
stays at its default, whatever the other collaborators did. -/
theorem c4_load_gated (a : UseCaseAgent) (b : Behavior)
    (h : (a.run b).1.check_neptune_permissions.ok = false) :
    Call.batchLoadCall ∉ (a.run b).2 ∧ (a.run b).1.batch_load = defaultEntry := by
  rcases run_scenarios a b with
      ⟨e, t1, hN, hr⟩ | ⟨v, e, t1, t2, hN, hS, hr⟩ | ⟨v, t1, t2, hN, hS, hr⟩ |
      ⟨v, e, t1, t2, hN, hS, hG, hr⟩ | ⟨v, t1, t2, hN, hS, hG, hr⟩ |
      ⟨t1, t2, hN, hS, hG, hr⟩ | ⟨e, t1, t2, hN, hS, hG, hL, hr⟩ |
      ⟨w, t1, t2, hN, hS, hG, hL, hr⟩
  · have ht1 : t1 = (a.check_neptune_permissions b).2 := by rw [hN]
    rw [hr]
    subst ht1
    exact ⟨loadCall_not_mem_neptune_trace a b, rfl⟩
  · have ht1 : t1 = (a.check_neptune_permissions b).2 := by rw [hN]
    have ht2 : t2 = (a.check_s3_permissions b).2 := by rw [hS]
    rw [hr]
    subst ht1
    subst ht2
    exact ⟨loadCall_not_mem_checks a b, rfl⟩
  · have ht1 : t1 = (a.check_neptune_permissions b).2 := by rw [hN]
    have ht2 : t2 = (a.check_s3_permissions b).2 := by rw [hS]
    rw [hr]
    subst ht1
    subst ht2
    exact ⟨loadCall_not_mem_checks a b, rfl⟩
  · have ht1 : t1 = (a.check_neptune_permissions b).2 := by rw [hN]
    have ht2 : t2 = (a.check_s3_permissions b).2 := by rw [hS]
    rw [hr]
    subst ht1
    subst ht2
    exact ⟨loadCall_not_mem_checks_gen a b, rfl⟩
  · have ht1 : t1 = (a.check_neptune_permissions b).2 := by rw [hN]
    have ht2 : t2 = (a.check_s3_permissions b).2 := by rw [hS]
    rw [hr]
    subst ht1
    subst ht2
    exact ⟨loadCall_not_mem_checks_gen a b, rfl⟩
  · have ht1 : t1 = (a.check_neptune_permissions b).2 := by rw [hN]
    have ht2 : t2 = (a.check_s3_permissions b).2 := by rw [hS]
    rw [hr]
    subst ht1
    subst ht2
    exact ⟨loadCall_not_mem_checks_gen a b, rfl⟩
  · rw [hr] at h
    simp [okEntry] at h
  · rw [hr] at h
    simp [okEntry] at h

/-- Witness for c4_load_gated at a concrete denied graph simulation with
all later collaborators succeeding. -/
theorem c4_load_gated_witness :
    Call.batchLoadCall ∉ (sampleAgent.run graphDeniedBehavior).2 ∧
    (sampleAgent.run graphDeniedBehavior).1.batch_load = defaultEntry :=
  c4_load_gated sampleAgent graphDeniedBehavior (by decide)

/-- C1, counterexample: with the graph-permission step reporting failure
(false, no exception) and every later collaborator succeeding, run still
invokes the storage-check and input-generation collaborators, and the
storage and input-generation summary entries do not stay at their default
{ok: false}. -/
theorem c1_counterexample :
    (sampleAgent.run graphDeniedBehavior).1.check_neptune_permissions.ok = false ∧
    (sampleAgent.run graphDeniedBehavior).1.check_neptune_permissions.error = none ∧
    Call.generateCsvsCall ∈ (sampleAgent.run graphDeniedBehavior).2 ∧
    (sampleAgent.run graphDeniedBehavior).1.check_s3_permissions ≠ defaultEntry ∧
    (sampleAgent.run graphDeniedBehavior).1.generate_csvs ≠ defaultEntry := by
  decide

/-- C1 (amended): run short-circuits on any step that raises and on the
storage or input-generation steps reporting failure, with never-attempted
steps keeping their default entries; the one exception is the
graph-permission check returning false without raising, after which the
storage and input-generation steps still execute and only the bulk load is
withheld.  Concretely: after a graph-check exception nothing else runs and
the later entries stay default; the input-generation collaborator is
invoked only when the recorded storage result is true; the bulk-load
collaborator is invoked only when all three prior steps recorded true; a
step whose collaborator is never invoked keeps its default entry. -/
theorem c1_short_circuit (a : UseCaseAgent) (b : Behavior) :
    (∀ e, b.neptuneSim = .error e →
      (a.run b).2 = [Call.simulate a.neptune_actions (graphResourceArns a)] ∧
      (a.run b).1.check_s3_permissions = defaultEntry ∧
      (a.run b).1.generate_csvs = defaultEntry ∧
      (a.run b).1.batch_load = defaultEntry) ∧
    (Call.generateCsvsCall ∈ (a.run b).2 →
      (a.run b).1.check_s3_permissions = okEntry true) ∧
    (Call.batchLoadCall ∈ (a.run b).2 →
      (a.run b).1.check_neptune_permissions = okEntry true ∧
      (a.run b).1.check_s3_permissions = okEntry true ∧
      (a.run b).1.generate_csvs = okEntry true) ∧
    (Call.generateCsvsCall ∉ (a.run b).2 →
      (a.run b).1.generate_csvs = defaultEntry) ∧
    (Call.batchLoadCall ∉ (a.run b).2 →
      (a.run b).1.batch_load = defaultEntry) := by
  rcases run_scenarios a b with
      ⟨e, t1, hN, hr⟩ | ⟨v, e, t1, t2, hN, hS, hr⟩ | ⟨v, t1, t2, hN, hS, hr⟩ |
      ⟨v, e, t1, t2, hN, hS, hG, hr⟩ | ⟨v, t1, t2, hN, hS, hG, hr⟩ |
      ⟨t1, t2, hN, hS, hG, hr⟩ | ⟨e, t1, t2, hN, hS, hG, hL, hr⟩ |
      ⟨w, t1, t2, hN, hS, hG, hL, hr⟩
  · have ht1 : t1 = [Call.simulate a.neptune_actions (graphResourceArns a)] := by
      have h2 := check_neptune_snd a b
      rw [hN] at h2
      exact h2
    rw [hr]
    subst ht1
    exact ⟨fun e2 he2 => ⟨rfl, rfl, rfl, rfl⟩,
      fun hm => by simp at hm, fun hm => by simp at hm,
      fun _ => rfl, fun _ => rfl⟩
  · have ht1 : t1 = (a.check_neptune_permissions b).2 := by rw [hN]
    have ht2 : t2 = (a.check_s3_permissions b).2 := by rw [hS]
    rw [hr]
    subst ht1
    subst ht2
    exact ⟨fun e2 he2 =>
        absurd he2 (neptune_no_raise_of_check_ok a b v _ hN e2),
      fun hm => absurd hm (genCall_not_mem_checks a b),
      fun hm => absurd hm (loadCall_not_mem_checks a b),
      fun _ => rfl, fun _ => rfl⟩
  · have ht1 : t1 = (a.check_neptune_permissions b).2 := by rw [hN]
    have ht2 : t2 = (a.check_s3_permissions b).2 := by rw [hS]
    rw [hr]
    subst ht1
    subst ht2
    exact ⟨fun e2 he2 =>
        absurd he2 (neptune_no_raise_of_check_ok a b v _ hN e2),
      fun hm => absurd hm (genCall_not_mem_checks a b),
      fun hm => absurd hm (loadCall_not_mem_checks a b),
      fun _ => rfl, fun _ => rfl⟩
  · have ht1 : t1 = (a.check_neptune_permissions b).2 := by rw [hN]
    have ht2 : t2 = (a.check_s3_permissions b).2 := by rw [hS]
    rw [hr]
    subst ht1
    subst ht2
    exact ⟨fun e2 he2 =>
        absurd he2 (neptune_no_raise_of_check_ok a b v _ hN e2),
      fun _ => rfl,
      fun hm => absurd hm (loadCall_not_mem_checks_gen a b),
      fun hnot => absurd (by simp) hnot,
      fun _ => rfl⟩
  · have ht1 : t1 = (a.check_neptune_permissions b).2 := by rw [hN]
    have ht2 : t2 = (a.check_s3_permissions b).2 := by rw [hS]
    rw [hr]
    subst ht1
    subst ht2
    exact ⟨fun e2 he2 =>
        absurd he2 (neptune_no_raise_of_check_ok a b v _ hN e2),
      fun _ => rfl,
      fun hm => absurd hm (loadCall_not_mem_checks_gen a b),
      fun _ => rfl,
      fun _ => rfl⟩
  · have ht1 : t1 = (a.check_neptune_permissions b).2 := by rw [hN]
    have ht2 : t2 = (a.check_s3_permissions b).2 := by rw [hS]
    rw [hr]
    subst ht1
    subst ht2
    exact ⟨fun e2 he2 =>
        absurd he2 (neptune_no_raise_of_check_ok a b false _ hN e2),
      fun _ => rfl,
      fun hm => absurd hm (loadCall_not_mem_checks_gen a b),
      fun hnot => absurd (by simp) hnot,
      fun _ => rfl⟩
  · have ht1 : t1 = (a.check_neptune_permissions b).2 := by rw [hN]
    have ht2 : t2 = (a.check_s3_permissions b).2 := by rw [hS]
    rw [hr]
    subst ht1
    subst ht2
    exact ⟨fun e2 he2 =>
        absurd he2 (neptune_no_raise_of_check_ok a b true _ hN e2),
      fun _ => rfl,
      fun _ => ⟨rfl, rfl, rfl⟩,
      fun hnot => absurd (by simp) hnot,
      fun hnot => absurd (by simp) hnot⟩
  · have ht1 : t1 = (a.check_neptune_permissions b).2 := by rw [hN]
    have ht2 : t2 = (a.check_s3_permissions b).2 := by rw [hS]
    rw [hr]
    subst ht1
    subst ht2
    exact ⟨fun e2 he2 =>
        absurd he2 (neptune_no_raise_of_check_ok a b true _ hN e2),
      fun _ => rfl,
      fun _ => ⟨rfl, rfl, rfl⟩,
      fun hnot => absurd (by simp) hnot,
      fun hnot => absurd (by simp) hnot⟩

/-- Witness for c1_short_circuit: at a fully successful concrete run the
bulk-load invocation implies all three prior steps recorded true. -/
theorem c1_short_circuit_witness :
    (sampleAgent.run happyBehavior).1.check_neptune_permissions = okEntry true ∧
    (sampleAgent.run happyBehavior).1.check_s3_permissions = okEntry true ∧
    (sampleAgent.run happyBehavior).1.generate_csvs = okEntry true :=
  (c1_short_circuit sampleAgent happyBehavior).2.2.1 (by decide)

/-- C3: for every collaborator behaviour (steps returning true or false, or
raising), run returns the five-entry summary — the blanket handlers of run
catch every exception constructor, which the embedding reflects by run
being total — and a step entry carrying an error message always has
ok = false, so every failing step is recorded as ok = false, possibly with
the error string. -/
theorem c3_run_total (a : UseCaseAgent) (b : Behavior) :
    (a.run b).1.toPairs.map Prod.fst = summaryKeys ∧
    ((a.run b).1.toPairs.all (fun p => p.2.error.isNone || !p.2.ok)) = true := by
  refine ⟨rfl, ?_⟩
  rcases run_scenarios a b with
      ⟨e, t1, hN, hr⟩ | ⟨v, e, t1, t2, hN, hS, hr⟩ | ⟨v, t1, t2, hN, hS, hr⟩ |
      ⟨v, e, t1, t2, hN, hS, hG, hr⟩ | ⟨v, t1, t2, hN, hS, hG, hr⟩ |
      ⟨t1, t2, hN, hS, hG, hr⟩ | ⟨e, t1, t2, hN, hS, hG, hL, hr⟩ |
      ⟨w, t1, t2, hN, hS, hG, hL, hr⟩ <;>
    rw [hr] <;>
    simp [Summary.toPairs, idEntry, okEntry, errEntry, defaultEntry]

/-- C9: every summary run returns has exactly the five fixed keys in
creation order, the identify entry echoes the principal with ok = true, an
error message appears in a step entry only when that step raised (and is
the str of the raised exception; for the storage step only a
non-ClientError from its simulation or probe reaches run), steps whose
collaborator was never invoked keep exactly the default {ok: false} entry,
and after a graph-check exception all three later steps keep their
defaults. -/
theorem c9_summary_shape (a : UseCaseAgent) (b : Behavior) :
    (a.run b).1.toPairs.map Prod.fst = summaryKeys ∧
    (a.run b).1.identify_principal = idEntry a.principal_arn ∧
    (∀ m, (a.run b).1.check_neptune_permissions.error = some m →
      ∃ e, b.neptuneSim = .error e ∧ m = e.message) ∧
    (∀ m, (a.run b).1.check_s3_permissions.error = some m →
      ∃ e, e.isClientError = false ∧ (b.s3Sim = .error e ∨ b.s3List = .error e) ∧
        m = e.message) ∧
    (∀ m, (a.run b).1.generate_csvs.error = some m →
      ∃ e, b.genCsvs = .error e ∧ m = e.message) ∧
    (∀ m, (a.run b).1.batch_load.error = some m →
      ∃ e, b.loadResult = .error e ∧ m = e.message) ∧
    (Call.generateCsvsCall ∉ (a.run b).2 →
      (a.run b).1.generate_csvs = defaultEntry) ∧
    (Call.batchLoadCall ∉ (a.run b).2 →
      (a.run b).1.batch_load = defaultEntry) ∧
    (∀ e, b.neptuneSim = .error e →
      (a.run b).1.check_s3_permissions = defaultEntry ∧
      (a.run b).1.generate_csvs = defaultEntry ∧
      (a.run b).1.batch_load = defaultEntry) := by
  rcases run_scenarios a b with
      ⟨e, t1, hN, hr⟩ | ⟨v, e, t1, t2, hN, hS, hr⟩ | ⟨v, t1, t2, hN, hS, hr⟩ |
      ⟨v, e, t1, t2, hN, hS, hG, hr⟩ | ⟨v, t1, t2, hN, hS, hG, hr⟩ |
      ⟨t1, t2, hN, hS, hG, hr⟩ | ⟨e, t1, t2, hN, hS, hG, hL, hr⟩ |
      ⟨w, t1, t2, hN, hS, hG, hL, hr⟩
  · have hraise : b.neptuneSim = .error e :=
      check_neptune_error_inv a b e (by rw [hN])
    rw [hr]
    refine ⟨rfl, rfl, ?_, ?_, ?_, ?_, fun _ => rfl, fun _ => rfl,
      fun e2 he2 => ⟨rfl, rfl, rfl⟩⟩
    · intro m hm
      simp [errEntry] at hm
      exact ⟨e, hraise, hm.symm⟩
    · intro m hm
      simp [defaultEntry] at hm
    · intro m hm
      simp [defaultEntry] at hm
    · intro m hm
      simp [defaultEntry] at hm
  · have horigin := check_s3_error_inv a b e (by rw [hS])
    have ht1 : t1 = (a.check_neptune_permissions b).2 := by rw [hN]
    have ht2 : t2 = (a.check_s3_permissions b).2 := by rw [hS]
    rw [hr]
    subst ht1
    subst ht2
    refine ⟨rfl, rfl, ?_, ?_, ?_, ?_, fun _ => rfl, fun _ => rfl,
      fun e2 he2 =>
        absurd he2 (neptune_no_raise_of_check_ok a b v _ hN e2)⟩
    · intro m hm
      simp [okEntry] at hm
    · intro m hm
      simp [errEntry] at hm
      exact ⟨e, horigin.1, horigin.2, hm.symm⟩
    · intro m hm
      simp [defaultEntry] at hm
    · intro m hm
      simp [defaultEntry] at hm
  · have ht1 : t1 = (a.check_neptune_permissions b).2 := by rw [hN]
    have ht2 : t2 = (a.check_s3_permissions b).2 := by rw [hS]
    rw [hr]
    subst ht1
    subst ht2
    refine ⟨rfl, rfl, ?_, ?_, ?_, ?_, fun _ => rfl, fun _ => rfl,
      fun e2 he2 =>
        absurd he2 (neptune_no_raise_of_check_ok a b v _ hN e2)⟩ <;>
      intro m hm <;> simp [okEntry, defaultEntry] at hm
  · have ht1 : t1 = (a.check_neptune_permissions b).2 := by rw [hN]
    have ht2 : t2 = (a.check_s3_permissions b).2 := by rw [hS]
    rw [hr]
    subst ht1
    subst ht2
    refine ⟨rfl, rfl, ?_, ?_, ?_, ?_,
      fun hnot => absurd (by simp) hnot, fun _ => rfl,
      fun e2 he2 =>
        absurd he2 (neptune_no_raise_of_check_ok a b v _ hN e2)⟩
    · intro m hm
      simp [okEntry] at hm
    · intro m hm
      simp [okEntry] at hm
    · intro m hm
      simp [errEntry] at hm
      exact ⟨e, hG, hm.symm⟩
    · intro m hm
      simp [defaultEntry] at hm
  · have ht1 : t1 = (a.check_neptune_permissions b).2 := by rw [hN]
    have ht2 : t2 = (a.check_s3_permissions b).2 := by rw [hS]
    rw [hr]
    subst ht1
    subst ht2
    refine ⟨rfl, rfl, ?_, ?_, ?_, ?_, fun _ => rfl, fun _ => rfl,
      fun e2 he2 =>
        absurd he2 (neptune_no_raise_of_check_ok a b v _ hN e2)⟩ <;>
      intro m hm <;> simp [okEntry, defaultEntry] at hm
  · have ht1 : t1 = (a.check_neptune_permissions b).2 := by rw [hN]
    have ht2 : t2 = (a.check_s3_permissions b).2 := by rw [hS]
    rw [hr]
    subst ht1
    subst ht2
    refine ⟨rfl, rfl, ?_, ?_, ?_, ?_,
      fun hnot => absurd (by simp) hnot, fun _ => rfl,
      fun e2 he2 =>
        absurd he2 (neptune_no_raise_of_check_ok a b false _ hN e2)⟩ <;>
      intro m hm <;> simp [okEntry, defaultEntry] at hm
  · have ht1 : t1 = (a.check_neptune_permissions b).2 := by rw [hN]
    have ht2 : t2 = (a.check_s3_permissions b).2 := by rw [hS]
    rw [hr]
    subst ht1
    subst ht2
    refine ⟨rfl, rfl, ?_, ?_, ?_, ?_,
      fun hnot => absurd (by simp) hnot,
      fun hnot => absurd (by simp) hnot,
      fun e2 he2 =>
        absurd he2 (neptune_no_raise_of_check_ok a b true _ hN e2)⟩
    · intro m hm
      simp [okEntry] at hm
    · intro m hm
      simp [okEntry] at hm
    · intro m hm
      simp [okEntry] at hm
    · intro m hm
      simp [errEntry] at hm
      exact ⟨e, hL, hm.symm⟩
  · have ht1 : t1 = (a.check_neptune_permissions b).2 := by rw [hN]
    have ht2 : t2 = (a.check_s3_permissions b).2 := by rw [hS]
    rw [hr]
    subst ht1
    subst ht2
    refine ⟨rfl, rfl, ?_, ?_, ?_, ?_,
      fun hnot => absurd (by simp) hnot,
      fun hnot => absurd (by simp) hnot,
      fun e2 he2 =>
        absurd he2 (neptune_no_raise_of_check_ok a b true _ hN e2)⟩ <;>
      intro m hm <;> simp [okEntry, defaultEntry] at hm

/-- Witness for c9_summary_shape: the error recorded for the graph step at
a concrete raising behaviour is the message of the raised exception. -/
theorem c9_summary_shape_witness :
    ∃ e, nepRaiseBehavior.neptuneSim = Except.error e ∧ "boom" = Exc.message e :=
  (c9_summary_shape sampleAgent nepRaiseBehavior).2.2.1 "boom" (by decide)
